import Mathlib

/-!
Verification of the voiceiq relay server (src/server.js).

The file embeds the per-call audio relay pipeline of the server:
the μ-law to PCM16 decoder, the little-endian packing of media frames,
the per-connection WebSocket message handler state machine, the
recognizer lifecycle (start and teardown), and the debounced forwarding
of final transcripts, and proves the stated properties about them.
-/

set_option maxRecDepth 4096

namespace VoiceIQ

/--
One iteration of the loop body of `decodeMuLawToPCM16` (src/server.js
lines 22-27), for one input byte `b` (Buffer entries are 0..255; the
`% 256` makes the Lean function total on Nat without changing the value
on actual bytes).

JavaScript details embedded: `mulaw = ~mulaw` on a byte `b` yields the
32-bit integer `-(b+1)`, whose low 8 bits are `255 - b`; the masks
`& 0xF`, `& 0x70`, `& 0x80` only look at those low 8 bits, so the
inverted value is modelled as `u = 255 - b`.  `(u & 0xF) << 3` is
`u % 16 * 8`; `(u & 0x70) >> 4` is `u / 16 % 8`; the shift
`t <<= exp` never overflows 32 bits (t ≤ 32256), so it is plain
multiplication by `2 ^ exp`; `mulaw & 0x80` is truthy exactly when
`u / 128 % 2 = 1`.
-/
def decodeMuLawSample (b : Nat) : Int :=
  let u : Nat := 255 - b % 256
  let t : Nat := (u % 16 * 8 + 0x84) * 2 ^ (u / 16 % 8)
  if u / 128 % 2 = 1 then (0x84 : Int) - (t : Int) else (t : Int) - (0x84 : Int)

/--
Storing an integer into an `Int16Array` slot keeps its value modulo
2^16, reinterpreted as a signed 16-bit value (ECMAScript ToInt16).
-/
def toInt16 (v : Int) : Int := (v + 32768) % 65536 - 32768

/--
`decodeMuLawToPCM16` (src/server.js lines 20-30): decode every byte of
the frame, in order, one output sample per input byte, each stored into
the `Int16Array`.
-/
def decodeMuLawToPCM16 (mulawData : List Nat) : List Int :=
  mulawData.map fun b => toInt16 (decodeMuLawSample b)

/--
`buf.writeInt16LE(v, 2*i)` (src/server.js line 151): the two's
complement 16-bit image of the sample, low byte first.
-/
def int16LEBytes (v : Int) : List Nat :=
  let w : Nat := (v % 65536).toNat
  [w % 256, w / 256]

/--
The byte buffer built in the `media` case of the message handler
(src/server.js lines 148-152): decode the payload, then pack each
sample little-endian at offset `2*i`.
-/
def mediaToBuffer (payload : List Nat) : List Nat :=
  (decodeMuLawToPCM16 payload).flatMap int16LEBytes

/--
The mutable per-connection state of the `wss.on("connection")` handler
(src/server.js lines 58-177): `callSid`, `rec`, `pushStream`,
`lastSentTime`, together with bookkeeping that makes the effects of the
handler observable in the model.  Recognizers and push streams are
identified by the id they were allocated under (`nextId` is the
allocator); `liveRecs` / `liveStreams` hold the ids of recognizers
started and push streams created that have not been closed yet;
`streamReleases` / `recReleases` log, in order, each id whose underlying
resource was actually released; `sinkWrites` logs every
`pushStream.write(buf)` as the pair (stream id, buffer bytes);
`wsClosed` records that the transport was closed (after which the ws
library delivers no further message events to the handler).
-/
structure ConnState where
  callSid : String
  recognizer : Option Nat
  pushStream : Option Nat
  lastSentTime : Nat
  nextId : Nat
  liveRecs : List Nat
  liveStreams : List Nat
  streamReleases : List Nat
  recReleases : List Nat
  sinkWrites : List (Nat × List Nat)
  wsClosed : Bool
  deriving Repr, DecidableEq

/-- The state at `wss.on("connection")`: `callSid = ""`, no recognizer,
no push stream, `lastSentTime = 0`, transport open. -/
def initialConn : ConnState :=
  { callSid := ""
    recognizer := none
    pushStream := none
    lastSentTime := 0
    nextId := 0
    liveRecs := []
    liveStreams := []
    streamReleases := []
    recReleases := []
    sinkWrites := []
    wsClosed := false }

/--
One parsed incoming WebSocket text frame, as the handler sees it after
`JSON.parse` (src/server.js lines 132-139).  `media`'s payload is the
already base64-decoded byte list of `data.media.payload` (`none` models
a missing/empty payload field, which is falsy).  `unknown` is a frame
that parses as JSON but whose `event` is none of start/media/stop;
`malformed` is a frame on which `JSON.parse` throws (the catch block
returns at once).
-/
inductive TwilioMsg where
  | start (callSid : Option String)
  | media (payload : Option (List Nat))
  | stop
  | unknown
  | malformed
  deriving Repr, DecidableEq

/--
`startRecognizer` (src/server.js lines 65-129): allocates a fresh push
stream and a fresh recognizer bound to it, overwrites the `pushStream`
and `rec` variables with them, and starts continuous recognition.  The
previous recognizer and stream, if any, are NOT stopped or closed — the
source has no such call — so previously live ids stay live.
-/
def startRecognizer (s : ConnState) : ConnState :=
  { s with
    pushStream := some s.nextId
    recognizer := some (s.nextId + 1)
    liveStreams := s.liveStreams ++ [s.nextId]
    liveRecs := s.liveRecs ++ [s.nextId + 1]
    nextId := s.nextId + 2 }

/--
`pushStream.close()` for stream id `ps`: releases the underlying
resource the first time; closing an already-closed stream is a no-op at
the resource level (and any error it might raise is swallowed by the
`try`/`catch` around the call site, src/server.js lines 165-167).
-/
def closeStream (ps : Nat) (s : ConnState) : ConnState :=
  if ps ∈ s.liveStreams then
    { s with
      liveStreams := s.liveStreams.filter (fun x => x != ps)
      streamReleases := s.streamReleases ++ [ps] }
  else s

/--
`rec.close()` for recognizer id `r`: releases the underlying resource
the first time; closing an already-closed recognizer is a no-op at the
resource level (errors swallowed by the surrounding `try`/`catch`,
src/server.js lines 168-173).
-/
def closeRec (r : Nat) (s : ConnState) : ConnState :=
  if r ∈ s.liveRecs then
    { s with
      liveRecs := s.liveRecs.filter (fun x => x != r)
      recReleases := s.recReleases ++ [r] }
  else s

/--
`rec.stopContinuousRecognitionAsync(() => rec.close(), () => rec.close())`
(src/server.js lines 169-172): whether the asynchronous stop succeeds
(`stopOk = true`, success continuation) or fails (`stopOk = false`,
failure continuation), the continuation that runs calls `rec.close()`
on the same recognizer.
-/
def stopRecognition (stopOk : Bool) (r : Nat) (s : ConnState) : ConnState :=
  if stopOk then closeRec r s else closeRec r s

/--
The `ws.on("close")` teardown handler (src/server.js lines 163-174):
close the push stream if one was ever created, then stop the recognizer
if one was ever created, releasing it from both continuations.  Both
statements sit in `try`/`catch` blocks, so the handler never raises.
-/
def teardown (stopOk : Bool) (s : ConnState) : ConnState :=
  let s1 := match s.pushStream with
            | some ps => closeStream ps s
            | none => s
  match s.recognizer with
  | some r => stopRecognition stopOk r s1
  | none => s1

/--
The `ws.on("message")` handler (src/server.js lines 131-161).  A frame
that fails `JSON.parse` returns from the catch; an `event` outside the
switch cases falls through; `start` sets `callSid` (empty string when
the field is absent, matching `data.start?.callSid || ""`) and calls
`startRecognizer`; `media` returns unless a push stream exists and a
payload is present, otherwise decodes the payload and writes the packed
buffer to the push stream; `stop` calls `ws.close()`, closing the
transport from this side.  The guard on `s.wsClosed` models the
transport: the ws library emits no message events after close.
-/
def handleMessage (s : ConnState) (m : TwilioMsg) : ConnState :=
  if s.wsClosed then s
  else
    match m with
    | TwilioMsg.start sid => startRecognizer { s with callSid := sid.getD "" }
    | TwilioMsg.media payload =>
        match s.pushStream, payload with
        | some ps, some bytes =>
            { s with sinkWrites := s.sinkWrites ++ [(ps, mediaToBuffer bytes)] }
        | _, _ => s
    | TwilioMsg.stop => { s with wsClosed := true }
    | TwilioMsg.unknown => s
    | TwilioMsg.malformed => s

/--
One externally visible event on a connection: an incoming text frame,
or the transport close (which fires the `ws.on("close")` teardown;
`stopOk` is the outcome of the asynchronous recognizer stop inside it).
-/
inductive ConnEvent where
  | msg (m : TwilioMsg)
  | wsClose (stopOk : Bool)
  deriving Repr, DecidableEq

/-- Dispatch one event to the matching handler of the connection. -/
def connStep (s : ConnState) (e : ConnEvent) : ConnState :=
  match e with
  | ConnEvent.msg m => handleMessage s m
  | ConnEvent.wsClose b => teardown b s

/-- Run a whole event sequence from the freshly connected state. -/
def runConn (evs : List ConnEvent) : ConnState :=
  evs.foldl connStep initialConn

/-- Does the event carry a `start` control message? -/
def isStartEvent : ConnEvent → Bool
  | ConnEvent.msg (TwilioMsg.start _) => true
  | _ => false

/--
One `console.log` / `console.error` line emitted by the recognizer
event handlers, abstracted to its kind: the interim-text line (line
77), the final-text line (line 85), the debounce-skip line (line 90)
and the webhook-failure line (line 108).
-/
inductive LogLine where
  | interimText (t : String)
  | finalText (t : String)
  | debounceSkip
  | fetchError
  deriving Repr, DecidableEq

/--
The `rec.recognized` final-result handler (src/server.js lines 83-112)
acting on the per-call debounce state.  Input: the configured webhook
URL `n8n` (the module constant `N8N`), whether the eventual `fetch`
settles successfully (`fetchOk`; the `catch` swallows a failure, so it
can only affect logging), the current `lastSentTime`, the result text,
and `Date.now()`.  Output: the new `lastSentTime` and whether the event
was submitted to the webhook.  Empty text fails the truthiness test;
a candidate younger than 2000 ms since the last accepted send is
dropped (not queued, not retried); otherwise `lastSentTime` is set to
`now` before the `fetch` is even issued, and the POST goes out iff a
webhook URL is configured.
-/
def handleRecognized (n8n : String) (fetchOk : Bool) (lastSentTime : Nat)
    (text : String) (now : Nat) : Nat × Bool × List LogLine :=
  if text = "" then (lastSentTime, false, [])
  else if now - lastSentTime < 2000 then
    (lastSentTime, false, [LogLine.finalText text, LogLine.debounceSkip])
  else if n8n = "" then (now, false, [LogLine.finalText text])
  else (now, true,
    if fetchOk then [LogLine.finalText text]
    else [LogLine.finalText text, LogLine.fetchError])

/--
The `rec.recognizing` interim-result handler (src/server.js lines
75-80) acting on the same per-call state: it logs non-empty interim
text and does nothing else — no webhook call, no `lastSentTime` update.
Output: new `lastSentTime`, whether a webhook POST was issued, and the
log lines produced.
-/
def handleRecognizing (lastSentTime : Nat) (text : String) :
    Nat × Bool × List LogLine :=
  if text = "" then (lastSentTime, false, [])
  else (lastSentTime, false, [LogLine.interimText text])

/-- A sample call identifier for concrete traces. -/
def sampleSid : String := "CA123"

/-- A sample webhook URL (non-empty, i.e. configured). -/
def sampleUrl : String := "https://n8n.example/hook"

/-- A sample non-empty transcript text. -/
def sampleText1 : String := "hello"

/-- Another sample non-empty transcript text. -/
def sampleText2 : String := "world"

/-- The trace that sends two `start` control messages on one
connection. -/
def doubleStartTrace : List ConnEvent :=
  [ConnEvent.msg (TwilioMsg.start (some sampleSid)),
   ConnEvent.msg (TwilioMsg.start (some sampleSid))]

/-- The trace that delivers a media frame before any `start`. -/
def mediaFirstTrace : List ConnEvent :=
  [ConnEvent.msg (TwilioMsg.media (some [0, 255]))]

/-- A connection state with one live recognizer and one live push
stream, as after a single `start`. -/
def streamingState : ConnState :=
  { initialConn with
    callSid := sampleSid
    recognizer := some 1
    pushStream := some 0
    liveRecs := [1]
    liveStreams := [0]
    nextId := 2 }

/-- The same connection after the transport closed. -/
def closedState : ConnState := { streamingState with wsClosed := true }

/-- Claim C1 (counterexample): the claim says an input byte with its top
bit set decodes to a negative sample; but byte 0x80 has its top bit set
and decodes to 32124, which is not negative (the source takes the sign
from the bitwise-inverted byte, so a set top bit in the input means a
cleared sign bit after inversion, hence the non-negative branch). -/
theorem muLaw_topBit_set_positive_counterexample :
    128 / 128 % 2 = 1 ∧ decodeMuLawSample 128 = 32124 ∧
    ¬ decodeMuLawSample 128 < 0 := by
  decide

/-- Claim C1 (amended): the decoded value's sign matches the input's top
bit: every input byte with its top bit set decodes to a non-negative
sample, and every input byte with its top bit clear decodes to a
non-positive sample. -/
theorem muLaw_sign_matches_topBit (b : Fin 256) :
    (128 ≤ b.val → 0 ≤ decodeMuLawSample b.val) ∧
    (b.val < 128 → decodeMuLawSample b.val ≤ 0) := by
  revert b; decide

/-- Witness for the amended claim C1 at the concrete bytes 128 (top bit
set) and 0 (top bit clear). -/
theorem muLaw_sign_matches_topBit_witness :
    0 ≤ decodeMuLawSample 128 ∧ decodeMuLawSample 0 ≤ 0 :=
  ⟨(muLaw_sign_matches_topBit ⟨128, by decide⟩).1 (by decide),
   (muLaw_sign_matches_topBit ⟨0, by decide⟩).2 (by decide)⟩

/-- Claim C4: for every input byte `b` (all 256 byte values, no error
case), with `u` the bitwise NOT of `b`, mantissa the low 4 bits of `u`
and exponent bits 4-6 of `u`, the magnitude of the decoded sample is
`(((mantissa <<< 3) + 0x84) <<< exponent) - 0x84`; moreover the value
survives the `Int16Array` store unchanged.  Determinism and freedom
from side effects hold because `decodeMuLawSample` is a pure total
function. -/
theorem muLaw_g711_expansion (b : Fin 256) :
    (decodeMuLawSample b.val).natAbs =
      ((255 - b.val) % 16 * 8 + 0x84) * 2 ^ ((255 - b.val) / 16 % 8) - 0x84 ∧
    toInt16 (decodeMuLawSample b.val) = decodeMuLawSample b.val := by
  revert b; decide

/-- Claim C10: every decoded sample lies in [-32124, 32124], so it fits
a signed 16-bit integer and the `Int16Array` store never wraps or
truncates. -/
theorem muLaw_range_int16 (b : Fin 256) :
    -32124 ≤ decodeMuLawSample b.val ∧ decodeMuLawSample b.val ≤ 32124 ∧
    toInt16 (decodeMuLawSample b.val) = decodeMuLawSample b.val := by
  revert b; decide

/-- Unfolding step: the buffer for a frame is the two little-endian
bytes of the first decoded sample followed by the buffer for the rest
of the frame. -/
theorem mediaToBuffer_cons (b : Nat) (rest : List Nat) :
    mediaToBuffer (b :: rest) =
      int16LEBytes (toInt16 (decodeMuLawSample b)) ++ mediaToBuffer rest := by
  simp [mediaToBuffer, decodeMuLawToPCM16]

/-- The little-endian image of a sample is two bytes. -/
theorem int16LEBytes_length (v : Int) : (int16LEBytes v).length = 2 := rfl

/-- Claim C5, part 1 (helper): the packed buffer has two bytes per
input byte. -/
theorem mediaToBuffer_length (payload : List Nat) :
    (mediaToBuffer payload).length = 2 * payload.length := by
  induction payload with
  | nil => rfl
  | cons b rest ih =>
      rw [mediaToBuffer_cons, List.length_append, int16LEBytes_length, ih,
        List.length_cons]
      omega

/-- Claim C5, part 2 (helper): byte `2*i` of the packed buffer is the
low byte of decoded sample `i` and byte `2*i+1` its high byte. -/
theorem mediaToBuffer_get (payload : List Nat) (i : Nat)
    (h : i < payload.length) :
    (mediaToBuffer payload).get? (2 * i) =
      some ((toInt16 (decodeMuLawSample (payload.getD i 0)) % 65536).toNat % 256) ∧
    (mediaToBuffer payload).get? (2 * i + 1) =
      some ((toInt16 (decodeMuLawSample (payload.getD i 0)) % 65536).toNat / 256) := by
  induction payload generalizing i with
  | nil => simp at h
  | cons b rest ih =>
      cases i with
      | zero =>
          rw [mediaToBuffer_cons]
          simp [int16LEBytes]
      | succ j =>
          have hj : j < rest.length := by
            simpa [List.length_cons] using h
          have hstep := ih j hj
          rw [mediaToBuffer_cons]
          have h2 : 2 * (j + 1) = 2 * j + 1 + 1 := by omega
          rw [h2]
          simpa [int16LEBytes, List.getD_cons_succ] using hstep

/-- Claim C5: for every media frame payload of N bytes processed in the
streaming state, the written PCM buffer has length exactly 2N and
consists of the decoded 16-bit samples in input order, each packed
little-endian (byte `2*i` the low byte, byte `2*i+1` the high byte of
sample `i`). -/
theorem media_frame_packing (payload : List Nat) :
    ((mediaToBuffer payload).length = 2 * payload.length ∧
    ∀ i, i < payload.length →
      (mediaToBuffer payload).get? (2 * i) =
        some ((toInt16 (decodeMuLawSample (payload.getD i 0)) % 65536).toNat % 256) ∧
      (mediaToBuffer payload).get? (2 * i + 1) =
        some ((toInt16 (decodeMuLawSample (payload.getD i 0)) % 65536).toNat / 256)) ∧
    ∀ s : ConnState, ∀ ps : Nat, s.wsClosed = false → s.pushStream = some ps →
      handleMessage s (TwilioMsg.media (some payload)) =
        { s with sinkWrites := s.sinkWrites ++ [(ps, mediaToBuffer payload)] } := by
  refine ⟨⟨mediaToBuffer_length payload,
    fun i h => mediaToBuffer_get payload i h⟩, ?_⟩
  intro s ps hws hps
  unfold handleMessage
  rw [hws, hps]
  rfl

/-- Witness for claim C5 on the concrete frame [0x80, 0x00]: four
bytes, sample 0 decodes to 32124 = 0x7D7C (bytes 124, 125), sample 1
decodes to -32124 with two's complement image 0x8284 (bytes 132, 130). -/
theorem media_frame_packing_witness :
    (mediaToBuffer [128, 0]).length = 4 ∧
    (mediaToBuffer [128, 0]).get? 0 = some 124 ∧
    (mediaToBuffer [128, 0]).get? 1 = some 125 ∧
    (mediaToBuffer [128, 0]).get? 2 = some 132 ∧
    (mediaToBuffer [128, 0]).get? 3 = some 130 ∧
    handleMessage streamingState (TwilioMsg.media (some [128, 0])) =
      { streamingState with sinkWrites := [(0, mediaToBuffer [128, 0])] } := by
  obtain ⟨⟨hlen, hget⟩, hsink⟩ := media_frame_packing [128, 0]
  obtain ⟨h00, h01⟩ := hget 0 (by decide)
  obtain ⟨h10, h11⟩ := hget 1 (by decide)
  refine ⟨hlen, ?_, ?_, ?_, ?_, ?_⟩
  · rw [show (0 : Nat) = 2 * 0 by rfl, h00]; decide
  · rw [show (1 : Nat) = 2 * 0 + 1 by rfl, h01]; decide
  · rw [show (2 : Nat) = 2 * 1 by rfl, h10]; decide
  · rw [show (3 : Nat) = 2 * 1 + 1 by rfl, h11]; decide
  · exact hsink streamingState 0 rfl rfl

/-- Claim C8: a message that fails JSON parsing, or whose event field
is none of start/media/stop, is discarded: the whole connection state —
call identifier, recognizer, push stream, debounce timestamp and all —
is unchanged, and the (total) handler raises nothing. -/
theorem unrecognized_message_discarded (s : ConnState) :
    handleMessage s TwilioMsg.malformed = s ∧
    handleMessage s TwilioMsg.unknown = s := by
  constructor <;> · unfold handleMessage; split <;> rfl

/-- Claim C9: an interim (recognizing) result, whatever its text, never
posts to the webhook and never changes the debounce timestamp. -/
theorem interim_no_forwarding (lastSentTime : Nat) (text : String) :
    (handleRecognizing lastSentTime text).1 = lastSentTime ∧
    (handleRecognizing lastSentTime text).2.1 = false := by
  unfold handleRecognizing; split <;> exact ⟨rfl, rfl⟩

/-- Closing a push stream touches no field of the connection state
other than the live-stream set and the stream release log. -/
@[simp] theorem closeStream_recognizer (ps : Nat) (s : ConnState) :
    (closeStream ps s).recognizer = s.recognizer := by
  unfold closeStream; split <;> rfl

/-- Closing a push stream leaves the push stream reference itself. -/
@[simp] theorem closeStream_pushStream (ps : Nat) (s : ConnState) :
    (closeStream ps s).pushStream = s.pushStream := by
  unfold closeStream; split <;> rfl

/-- Closing a push stream leaves the live recognizers. -/
@[simp] theorem closeStream_liveRecs (ps : Nat) (s : ConnState) :
    (closeStream ps s).liveRecs = s.liveRecs := by
  unfold closeStream; split <;> rfl

/-- Closing a push stream leaves the recognizer release log. -/
@[simp] theorem closeStream_recReleases (ps : Nat) (s : ConnState) :
    (closeStream ps s).recReleases = s.recReleases := by
  unfold closeStream; split <;> rfl

/-- Closing a push stream leaves the sink write log. -/
@[simp] theorem closeStream_sinkWrites (ps : Nat) (s : ConnState) :
    (closeStream ps s).sinkWrites = s.sinkWrites := by
  unfold closeStream; split <;> rfl

/-- Closing a recognizer leaves the recognizer reference itself. -/
@[simp] theorem closeRec_recognizer (r : Nat) (s : ConnState) :
    (closeRec r s).recognizer = s.recognizer := by
  unfold closeRec; split <;> rfl

/-- Closing a recognizer leaves the push stream reference. -/
@[simp] theorem closeRec_pushStream (r : Nat) (s : ConnState) :
    (closeRec r s).pushStream = s.pushStream := by
  unfold closeRec; split <;> rfl

/-- Closing a recognizer leaves the live streams. -/
@[simp] theorem closeRec_liveStreams (r : Nat) (s : ConnState) :
    (closeRec r s).liveStreams = s.liveStreams := by
  unfold closeRec; split <;> rfl

/-- Closing a recognizer leaves the stream release log. -/
@[simp] theorem closeRec_streamReleases (r : Nat) (s : ConnState) :
    (closeRec r s).streamReleases = s.streamReleases := by
  unfold closeRec; split <;> rfl

/-- Closing a recognizer leaves the sink write log. -/
@[simp] theorem closeRec_sinkWrites (r : Nat) (s : ConnState) :
    (closeRec r s).sinkWrites = s.sinkWrites := by
  unfold closeRec; split <;> rfl

/-- Success and failure continuation run the same `rec.close()`. -/
@[simp] theorem stopRecognition_eq (b : Bool) (r : Nat) (s : ConnState) :
    stopRecognition b r s = closeRec r s := by
  unfold stopRecognition; split <;> rfl

/-- After `closeStream ps`, stream `ps` is no longer live. -/
theorem closeStream_not_live (ps : Nat) (s : ConnState) :
    ps ∉ (closeStream ps s).liveStreams := by
  by_cases h : ps ∈ s.liveStreams <;> simp [closeStream, h, List.mem_filter]

/-- After `closeRec r`, recognizer `r` is no longer live. -/
theorem closeRec_not_live (r : Nat) (s : ConnState) :
    r ∉ (closeRec r s).liveRecs := by
  by_cases h : r ∈ s.liveRecs <;> simp [closeRec, h, List.mem_filter]

/-- Closing a stream that is not live releases nothing and changes
nothing. -/
theorem closeStream_of_not_live (ps : Nat) (s : ConnState)
    (h : ps ∉ s.liveStreams) : closeStream ps s = s := by
  unfold closeStream; rw [if_neg h]

/-- Closing a recognizer that is not live releases nothing and changes
nothing. -/
theorem closeRec_of_not_live (r : Nat) (s : ConnState)
    (h : r ∉ s.liveRecs) : closeRec r s = s := by
  unfold closeRec; rw [if_neg h]

/-- Teardown leaves the push stream reference (the source never nulls
the variable). -/
@[simp] theorem teardown_pushStream (b : Bool) (s : ConnState) :
    (teardown b s).pushStream = s.pushStream := by
  unfold teardown
  cases hps : s.pushStream <;> cases hr : s.recognizer <;> simp [hps, hr]

/-- Teardown leaves the recognizer reference. -/
@[simp] theorem teardown_recognizer (b : Bool) (s : ConnState) :
    (teardown b s).recognizer = s.recognizer := by
  unfold teardown
  cases hps : s.pushStream <;> cases hr : s.recognizer <;> simp [hps, hr]

/-- Teardown writes nothing to any audio sink. -/
@[simp] theorem teardown_sinkWrites (b : Bool) (s : ConnState) :
    (teardown b s).sinkWrites = s.sinkWrites := by
  unfold teardown
  cases hps : s.pushStream <;> cases hr : s.recognizer <;> simp [hps, hr]

/-- A second run of the transport-close handler changes nothing: every
resource it would touch is already closed. -/
theorem teardown_teardown (b1 b2 : Bool) (s : ConnState) :
    teardown b2 (teardown b1 s) = teardown b1 s := by
  cases hps : s.pushStream with
  | none =>
      cases hr : s.recognizer with
      | none => simp [teardown, hps, hr]
      | some r =>
          have h1 : teardown b1 s = closeRec r s := by simp [teardown, hps, hr]
          have h2 : teardown b2 (closeRec r s) = closeRec r s := by
            simp [teardown, hps, hr,
              closeRec_of_not_live r (closeRec r s) (closeRec_not_live r s)]
          rw [h1, h2]
  | some ps =>
      cases hr : s.recognizer with
      | none =>
          have h1 : teardown b1 s = closeStream ps s := by simp [teardown, hps, hr]
          have h2 : teardown b2 (closeStream ps s) = closeStream ps s := by
            simp [teardown, hps, hr,
              closeStream_of_not_live ps (closeStream ps s)
                (closeStream_not_live ps s)]
          rw [h1, h2]
      | some r =>
          have h1 : teardown b1 s = closeRec r (closeStream ps s) := by
            simp [teardown, hps, hr]
          have hps2 : ps ∉ (closeRec r (closeStream ps s)).liveStreams := by
            rw [closeRec_liveStreams]
            exact closeStream_not_live ps s
          have hr2 : r ∉ (closeRec r (closeStream ps s)).liveRecs :=
            closeRec_not_live r (closeStream ps s)
          have h2 : teardown b2 (closeRec r (closeStream ps s)) =
              closeRec r (closeStream ps s) := by
            simp [teardown, hps, hr,
              closeStream_of_not_live ps _ hps2, closeRec_of_not_live r _ hr2]
          rw [h1, h2]

/-- Claim C7: invoking the transport-close teardown twice never faults
and changes nothing the second time (release happens exactly once
observably: with a live recognizer `r`, the release log after teardown
is the old log extended by exactly one entry for `r`, and a repeated
teardown leaves it untouched); and the success and the failure
continuation of the asynchronous stop release the same recognizer, so
release happens on both exit paths. -/
theorem teardown_idempotent_release_once (s : ConnState) (b1 b2 : Bool)
    (r : Nat) (hr : s.recognizer = some r) (hlive : r ∈ s.liveRecs) :
    teardown b2 (teardown b1 s) = teardown b1 s ∧
    teardown true s = teardown false s ∧
    (teardown b1 s).recReleases = s.recReleases ++ [r] := by
  refine ⟨teardown_teardown b1 b2 s, ?_, ?_⟩
  · unfold teardown
    cases hps : s.pushStream <;> cases hr2 : s.recognizer <;> simp [hps, hr2]
  · cases hps : s.pushStream <;> simp [teardown, hps, hr, closeRec, hlive]

/-- Witness for claim C7 on the post-start state with recognizer 1 and
push stream 0 both live. -/
theorem teardown_idempotent_release_once_witness :
    teardown true (teardown true streamingState) = teardown true streamingState ∧
    teardown true streamingState = teardown false streamingState ∧
    (teardown true streamingState).recReleases = [1] := by
  obtain ⟨h1, h2, h3⟩ :=
    teardown_idempotent_release_once streamingState true true 1 rfl (by decide)
  exact ⟨h1, h2, by simpa using h3⟩

/-- A media frame reaching the handler while no push stream exists is
discarded without any state change (the guard on line 147 returns). -/
theorem handleMessage_media_noStream (s : ConnState)
    (payload : Option (List Nat)) (hs : s.pushStream = none) :
    handleMessage s (TwilioMsg.media payload) = s := by
  unfold handleMessage
  split
  · rfl
  · rw [hs]

/-- A `stop` message leaves the push stream reference unchanged (it
only closes the transport). -/
@[simp] theorem handleMessage_stop_pushStream (s : ConnState) :
    (handleMessage s TwilioMsg.stop).pushStream = s.pushStream := by
  unfold handleMessage; split <;> rfl

/-- A `stop` message writes nothing to any audio sink. -/
@[simp] theorem handleMessage_stop_sinkWrites (s : ConnState) :
    (handleMessage s TwilioMsg.stop).sinkWrites = s.sinkWrites := by
  unfold handleMessage; split <;> rfl

/-- A frame that fails JSON parsing changes nothing (the catch
returns). -/
theorem handleMessage_malformed_eq (s : ConnState) :
    handleMessage s TwilioMsg.malformed = s := by
  unfold handleMessage; split <;> rfl

/-- A frame with an unrecognized event field changes nothing (the
switch falls through). -/
theorem handleMessage_unknown_eq (s : ConnState) :
    handleMessage s TwilioMsg.unknown = s := by
  unfold handleMessage; split <;> rfl

/-- Invariant: starting from a state with no push stream and an empty
sink-write log, any event sequence free of `start` messages keeps the
push stream absent and the sink-write log empty. -/
theorem noStart_foldl_invariant (evs : List ConnEvent) :
    ∀ s : ConnState, s.pushStream = none → s.sinkWrites = [] →
    (∀ e ∈ evs, isStartEvent e = false) →
    (evs.foldl connStep s).pushStream = none ∧
    (evs.foldl connStep s).sinkWrites = [] := by
  induction evs with
  | nil => exact fun s hs hw _ => ⟨hs, hw⟩
  | cons e rest ih =>
      intro s hs hw h
      have he : isStartEvent e = false := h e (List.mem_cons_self e rest)
      have hrest : ∀ x ∈ rest, isStartEvent x = false :=
        fun x hx => h x (List.mem_cons_of_mem e hx)
      rw [List.foldl_cons]
      have hstep : (connStep s e).pushStream = none ∧
          (connStep s e).sinkWrites = [] := by
        cases e with
        | wsClose b => simp [connStep, hs, hw]
        | msg m =>
            cases m with
            | start sid => simp [isStartEvent] at he
            | media p => simp [connStep, handleMessage_media_noStream s p hs, hs, hw]
            | stop => simp [connStep, hs, hw]
            | unknown => simp [connStep, handleMessage_unknown_eq, hs, hw]
            | malformed => simp [connStep, handleMessage_malformed_eq, hs, hw]
      exact ih (connStep s e) hstep.1 hstep.2 hrest

/-- Claim C6: in any event sequence with no `start` message (so in
particular for a media frame arriving before any start, and for frames
the transport would deliver around teardown), no write to any audio
sink ever happens, no push stream exists, and a further media frame is
discarded with the state completely unchanged — the (total) handler
does not crash and buffers nothing. -/
theorem media_before_start_no_feed (evs : List ConnEvent)
    (h : ∀ e ∈ evs, isStartEvent e = false) :
    ((runConn evs).sinkWrites = [] ∧
    (runConn evs).pushStream = none ∧
    ∀ payload, handleMessage (runConn evs) (TwilioMsg.media payload) = runConn evs) ∧
    ∀ s : ConnState, s.wsClosed = true →
      ∀ payload, handleMessage s (TwilioMsg.media payload) = s := by
  obtain ⟨hps, hsw⟩ := noStart_foldl_invariant evs initialConn rfl rfl h
  refine ⟨⟨hsw, hps, fun payload => handleMessage_media_noStream _ payload hps⟩, ?_⟩
  intro s hcl payload
  unfold handleMessage
  rw [hcl]
  rfl

/-- Witness for claim C6 on the concrete trace that delivers one media
frame on a fresh connection. -/
theorem media_before_start_no_feed_witness :
    (runConn mediaFirstTrace).sinkWrites = [] ∧
    handleMessage (runConn mediaFirstTrace) (TwilioMsg.media (some [0])) =
      runConn mediaFirstTrace ∧
    handleMessage closedState (TwilioMsg.media (some [0])) = closedState := by
  obtain ⟨⟨h1, _, h3⟩, h4⟩ := media_before_start_no_feed mediaFirstTrace (by decide)
  exact ⟨h1, h3 (some [0]), h4 closedState rfl (some [0])⟩

/-- Claim C2 (evaluation at the failing input): processing two `start`
messages on one connection leaves TWO live recognizers — the handler
overwrites the `rec` and `pushStream` variables with fresh instances
and never stops or closes the previous ones — violating the invariant
that at most one recognition session exists per call session. -/
theorem double_start_two_live_recognizers :
    (runConn doubleStartTrace).liveRecs = [1, 3] ∧
    (runConn doubleStartTrace).liveStreams = [0, 2] ∧
    ¬ (runConn doubleStartTrace).liveRecs.length ≤ 1 := by
  decide

/-- Claim C3: once a final transcript is accepted (submitted to the
configured webhook), the debounce timestamp becomes the acceptance time
`t1` — and it does so independently of how the network call later
settles, which is the observable content of "updated before the network
call completes".  A second non-empty final transcript at time `t2` is
submitted iff at least 2000 ms elapsed since `t1`; below the threshold
it is dropped — the handler keeps no queue and performs no retry, the
timestamp and the drop are its only effects. -/
theorem debounce_two_finals (n8n text1 text2 : String) (lst t1 t2 : Nat)
    (fk1 fk2 : Bool) (h2 : text2 ≠ "")
    (hacc : (handleRecognized n8n fk1 lst text1 t1).2.1 = true) :
    (handleRecognized n8n fk1 lst text1 t1).1 = t1 ∧
    ((handleRecognized n8n fk2 ((handleRecognized n8n fk1 lst text1 t1).1)
        text2 t2).2.1 = true ↔ 2000 ≤ t2 - t1) ∧
    (∀ fa fb : Bool,
      (handleRecognized n8n fa lst text1 t1).1 =
        (handleRecognized n8n fb lst text1 t1).1 ∧
      (handleRecognized n8n fa lst text1 t1).2.1 =
        (handleRecognized n8n fb lst text1 t1).2.1) := by
  have ha : ¬ text1 = "" := fun hx => by
    simp [handleRecognized, hx] at hacc
  have hb : ¬ t1 - lst < 2000 := fun hx => by
    simp [handleRecognized, ha, hx] at hacc
  have hc : ¬ n8n = "" := fun hx => by
    simp [handleRecognized, ha, hb, hx] at hacc
  have e1 : (handleRecognized n8n fk1 lst text1 t1).1 = t1 := by
    simp [handleRecognized, ha, hb, hc]
  refine ⟨e1, ?_, ?_⟩
  · rw [e1]
    by_cases hd : t2 - t1 < 2000
    · simp [handleRecognized, h2, hc, hd]
    · simp [handleRecognized, h2, hc, hd]
      omega
  · intro fa fb
    unfold handleRecognized
    split_ifs <;> exact ⟨rfl, rfl⟩

/-- Witness for claim C3: webhook configured, first final accepted at
t = 10000 ms, second final at t = 12000 ms (exactly the threshold), so
the second is submitted too; the timestamp after the first accept is
10000 whatever the fetch outcome. -/
theorem debounce_two_finals_witness :
    (handleRecognized sampleUrl true 0 sampleText1 10000).1 = 10000 ∧
    ((handleRecognized sampleUrl false 10000 sampleText2 12000).2.1 = true ↔
      2000 ≤ 12000 - 10000) := by
  have h := debounce_two_finals sampleUrl sampleText1 sampleText2 0 10000 12000
    true false (by decide) (by decide)
  have h21 := h.2.1
  rw [h.1] at h21
  exact ⟨h.1, h21⟩

end VoiceIQ
